import Mathlib

/-!
Shallow embedding of the aws-s3-train repository: the storage client wrapper
in src/libs/aws/s3/s3.ts and the upload page server action. The object-store
provider itself (AWS S3, not part of the repository) is modelled where a
claim depends on its documented list semantics; those definitions carry a
doc comment starting with Modelled from the spec.
-/

namespace S3Train

/-- The process environment variables the code reads. A value of none models
an absent variable (undefined in JS). -/
structure Env where
  AWS_REGION : Option String
  AWS_ACCESS_KEY_ID : Option String
  AWS_SECRET_ACCESS_KEY : Option String
  AWS_BUCKET_NAME : Option String
deriving DecidableEq

/-- JS template-literal coercion of a possibly-undefined string: an absent
value is rendered as the text undefined. -/
def jsTemplateString : Option String → String
  | some s => s
  | none => "undefined"

/-- JS truthiness of a possibly-undefined string: undefined and the empty
string are falsy, every other string is truthy. -/
def jsTruthy : Option String → Bool
  | none => false
  | some s => s != ""

/-- The configuration of the S3 client constructed at module load
(s3.ts lines 14 to 20). -/
structure S3ClientConfig where
  region : Option String
  accessKeyId : String
  secretAccessKey : String
deriving DecidableEq

/-- s3Client (s3.ts lines 14 to 20): the region is passed through exactly as
read from the environment, while each credential falls back to the empty
string through the JS or-operator. -/
def s3Client (env : Env) : S3ClientConfig :=
  { region := env.AWS_REGION
    accessKeyId := (env.AWS_ACCESS_KEY_ID).getD ""
    secretAccessKey := (env.AWS_SECRET_ACCESS_KEY).getD "" }

/-- UploadParams (s3.ts lines 23 to 44). Body is modelled as a byte list. -/
structure UploadParams where
  Bucket : String
  Key : String
  Body : List Nat
  ContentType : Option String
  ACL : Option String
deriving DecidableEq

/-- The put-object request the wrapper hands to the client. -/
structure PutObjectCommandInput where
  Bucket : String
  Key : String
  Body : List Nat
  ContentType : Option String
  ACL : Option String
deriving DecidableEq

/-- The request body built by uploadFileToS3 (s3.ts lines 53 to 62): the ACL
field is copied into the request only when it is truthy, otherwise it is
left absent. -/
def uploadInput (params : UploadParams) : PutObjectCommandInput :=
  let base : PutObjectCommandInput :=
    { Bucket := params.Bucket, Key := params.Key, Body := params.Body,
      ContentType := params.ContentType, ACL := none }
  if jsTruthy params.ACL then { base with ACL := params.ACL } else base

/-- Trace of one call to uploadFileToS3: the outcome the caller sees, the
put-object requests issued, and the console lines written. -/
structure UploadRun where
  result : Except String Unit
  requests : List PutObjectCommandInput
  logs : List String

/-- uploadFileToS3 (s3.ts lines 51 to 72): builds the request, sends it once
through the client, and on a provider error logs and rethrows that same
error; send gives the provider outcome for a request. -/
def uploadFileToS3 (params : UploadParams)
    (send : PutObjectCommandInput → Except String Unit) : UploadRun :=
  let input := uploadInput params
  match send input with
  | Except.ok _ =>
      { result := Except.ok ()
        requests := [input]
        logs := ["Upload successful: s3://" ++ params.Bucket ++ "/" ++ params.Key] }
  | Except.error e =>
      { result := Except.error e
        requests := [input]
        logs := ["Error during file upload:", e] }

/-- getPublicUrl (s3.ts lines 82 to 87): pure string formatting over the
bucket name, the region environment variable and the key; no other input is
consulted and no request is issued. -/
def getPublicUrl (env : Env) (bucketName key : String) : String :=
  "https://" ++ bucketName ++ ".s3." ++ jsTemplateString env.AWS_REGION
    ++ ".amazonaws.com/" ++ key

/-- The command handed to the presigner. -/
inductive S3Command where
  | putObject (Bucket Key : String) (ContentType : Option String)
  | getObject (Bucket Key : String)
deriving DecidableEq

/-- What getSignedUrl receives: a command plus the expiresIn option. -/
structure PresignRequest where
  command : S3Command
  expiresIn : Nat
deriving DecidableEq

/-- generateUploadSignedUrl (s3.ts lines 95 to 108), modelled up to the
presign request it hands to the provider. The TS parameter default
expiresIn = 300 is modelled by an Option argument: none is an omitted
argument and resolves to 300. -/
def generateUploadSignedUrl (bucket key contentType : String)
    (expiresIn : Option Nat) : PresignRequest :=
  { command := S3Command.putObject bucket key (some contentType)
    expiresIn := expiresIn.getD 300 }

/-- generateGetSignedUrl (s3.ts lines 117 to 128), modelled like
generateUploadSignedUrl. -/
def generateGetSignedUrl (bucket key : String) (expiresIn : Option Nat) :
    PresignRequest :=
  { command := S3Command.getObject bucket key
    expiresIn := expiresIn.getD 300 }

/-- An object as stored in a bucket, with the attributes S3 reports. -/
structure S3Object where
  Key : String
  LastModified : Nat
  Size : Nat
deriving DecidableEq, Inhabited

/-- A string starts with another string: the character-list prefix test,
used to state and model the provider prefix filter. -/
def strStarts (p s : String) : Bool := p.data.isPrefixOf s.data

/-- Modelled from the spec: the provider default page size of the
list-objects operation (the spec says one page of the provider default page
size; for AWS ListObjectsV2 that default is 1000 keys). -/
def listDefaultPageSize : Nat := 1000

/-- The provider response to a list request: Contents is absent when no
object matched. -/
structure ListObjectsV2Response where
  Contents : Option (List S3Object)
deriving DecidableEq

/-- Modelled from the spec: the list-objects-by-prefix operation of the
provider, which is not code of this repository. It returns one page of at
most listDefaultPageSize objects whose key starts with the requested value p
and omits the Contents field when nothing matches; further matching objects
are only reachable through a continuation request, which the code under
verification never issues. -/
def s3ListObjectsV2 (objects : List S3Object) (p : String) :
    ListObjectsV2Response :=
  let matching := objects.filter (fun o => strStarts p o.Key)
  let page := matching.take listDefaultPageSize
  { Contents := if page.isEmpty then none else some page }

/-- The single list request listFilesInS3Path issues: the bucket and the
requested key start (field Pfx). The code never sets a continuation token,
so the request carries none. -/
structure ListRequest where
  Bucket : String
  Pfx : String
deriving DecidableEq

/-- The descriptor listFilesInS3Path returns per object: the spread of the
original item plus lowercase aliases (s3.ts lines 144 to 149). -/
structure FileDescriptor where
  Key : String
  LastModified : Nat
  Size : Nat
  key : String
  lastModified : Nat
  size : Nat
deriving DecidableEq, Inhabited

def descriptorOfItem (item : S3Object) : FileDescriptor :=
  { Key := item.Key, LastModified := item.LastModified, Size := item.Size,
    key := item.Key, lastModified := item.LastModified, size := item.Size }

/-- Trace of one call to listFilesInS3Path: the value returned or error
rethrown, and the list requests issued. -/
structure ListRun where
  result : Except String (List FileDescriptor)
  requests : List ListRequest

/-- listFilesInS3Path (s3.ts lines 135 to 155): issues one list request,
maps the Contents items when present, defaults to the empty list when the
field is absent, and rethrows a provider error unchanged after logging. -/
def listFilesInS3Path (bucket p : String)
    (send : ListRequest → Except String ListObjectsV2Response) : ListRun :=
  let req : ListRequest := { Bucket := bucket, Pfx := p }
  match send req with
  | Except.ok response =>
      { result :=
          Except.ok ((response.Contents.map (fun l => l.map descriptorOfItem)).getD [])
        requests := [req] }
  | Except.error e =>
      { result := Except.error e, requests := [req] }

/-- The provider send function for list requests, over a store mapping a
bucket name to the objects it holds. -/
def awsSend (store : String → List S3Object) (req : ListRequest) :
    Except String ListObjectsV2Response :=
  Except.ok (s3ListObjectsV2 (store req.Bucket) req.Pfx)

/-- A JS File as delivered by formData.get: name, byte size, MIME type and
content bytes. -/
structure JsFile where
  name : String
  size : Nat
  type : String
  content : List Nat
deriving DecidableEq

/-- A JS runtime error: a TypeError from dereferencing null, or a thrown
Error value. -/
inductive JsErr where
  | typeError (msg : String)
  | err (msg : String)
deriving DecidableEq

/-- Trace of one call of the uploadAction server action: the console.error
lines written, and either the thrown error or the params handed on to
uploadFileToS3. -/
structure UploadActionRun where
  outcome : Except JsErr UploadParams
  errorLogs : List String

/-- The TypeError raised by JS when the size property is read on null. -/
def nullSizeMsg : String := "Cannot read properties of null (reading size)"

/-- uploadAction (page file lines 11 to 47). The file argument is none when
the form data has no file entry, in which case formData.get returns null.
The missing-file and empty-file checks only call console.error and fall
through; but when the file is null, the condition of the empty-file check
itself reads size on null and raises a TypeError. The file-name check
throws. The ACL is private or public-read according to the private field. -/
def uploadAction (env : Env) (file : Option JsFile)
    (privateField : Option String) : UploadActionRun :=
  let logs0 := if file.isNone then ["File is required"] else []
  match file with
  | none =>
      { outcome := Except.error (JsErr.typeError nullSizeMsg)
        errorLogs := logs0 }
  | some f =>
      let logs1 := logs0 ++ (if f.size == 0 then ["File is empty"] else [])
      let isPrivate := privateField == some "on" || privateField == some "true"
      if f.name = "" then
        { outcome := Except.error (JsErr.err "File name is required")
          errorLogs := logs1 }
      else
        { outcome := Except.ok
            { Bucket := (env.AWS_BUCKET_NAME).getD ""
              Key := "test/" ++ f.name
              Body := f.content
              ContentType := some f.type
              ACL := some (if isPrivate then "private" else "public-read") }
          errorLogs := logs1 }

/-- One rendered file entry on the upload page. -/
structure PageFileEntry where
  url : String
  key : String
  size : Nat
  lastModified : Nat
  mimeType : Option String
deriving DecidableEq

/-- The body of one fan-out task of UploadPage (page file lines 62 to 98):
the entry produced for one listed descriptor. sign is the provider
presigning oracle and mimeLookup the mime-types lookup table; with unhide on
the task asks for a signed get URL with a 10 second expiry, otherwise it
formats the public URL. -/
def pageEntry (env : Env) (sign : PresignRequest → String)
    (mimeLookup : String → Option String) (unhide : Option String)
    (f : FileDescriptor) : PageFileEntry :=
  { url :=
      if unhide == some "on" then
        sign (generateGetSignedUrl "teqhire-store-dev" f.key (some 10))
      else
        getPublicUrl env ((env.AWS_BUCKET_NAME).getD "") f.key
    key := f.key
    size := f.size
    lastModified := f.lastModified
    mimeType := mimeLookup f.key }

/-- A concurrent execution of the Promise.all fan-out: task i computes the
entry for index i from its own captured descriptor and writes it into slot
i; a schedule lists the order in which the tasks complete, and any
permutation of the task indices is a possible interleaving. -/
def runTasks (entry : Nat → PageFileEntry) :
    List Nat → (Nat → Option PageFileEntry) → Nat → Option PageFileEntry
  | [], slots => slots
  | i :: rest, slots =>
      runTasks entry rest (fun j => if j = i then some (entry i) else slots j)

/-! Concrete inputs used by witnesses and counterexamples. -/

/-- An environment with every variable set. -/
def envW : Env :=
  { AWS_REGION := some "us-east-1"
    AWS_ACCESS_KEY_ID := some "AKIA"
    AWS_SECRET_ACCESS_KEY := some "SECRET"
    AWS_BUCKET_NAME := some "teqhire-store-dev" }

/-- An environment with every variable absent. -/
def envAllMissing : Env :=
  { AWS_REGION := none
    AWS_ACCESS_KEY_ID := none
    AWS_SECRET_ACCESS_KEY := none
    AWS_BUCKET_NAME := none }

/-- A stored object whose key starts with test. -/
def objTestA : S3Object :=
  { Key := "test/a.txt", LastModified := 100, Size := 5 }

/-- A stored object whose key does not start with test. -/
def objOther : S3Object :=
  { Key := "other/b.txt", LastModified := 200, Size := 7 }

/-- A store holding one matching and one non-matching object. -/
def storeW : String → List S3Object := fun _ => [objTestA, objOther]

/-- A store holding only an object outside the test path. -/
def storeOnlyOther : String → List S3Object := fun _ => [objOther]

/-- Upload parameters with no ACL field. -/
def paramsNoAcl : UploadParams :=
  { Bucket := "b", Key := "k", Body := [], ContentType := none, ACL := none }

/-- A nonempty file with a name. -/
def fileW : JsFile :=
  { name := "a.png", size := 5, type := "image/png", content := [1, 2, 3, 4, 5] }

/-- An empty file with a name. -/
def fileEmptyW : JsFile :=
  { name := "a.png", size := 0, type := "image/png", content := [] }

/-- A fixed presigning oracle for witnesses. -/
def signW : PresignRequest → String := fun r => "signed-" ++ toString r.expiresIn

/-- A fixed mime lookup for witnesses. -/
def mimeW : String → Option String := fun _ => none

/-- Two listed descriptors for the fan-out witness. -/
def filesW : List FileDescriptor := [descriptorOfItem objTestA, descriptorOfItem objOther]

/-! Theorems. -/

/-- Claim C1: getPublicUrl is pure string formatting and returns the URL
string https followed by bucket, then .s3., the AWS_REGION value,
.amazonaws.com/ and the key; it is total in the key, so a URL is returned
for any key, existing or not, and nothing but the three strings is
consulted (the definition takes no store, so no existence check can occur). -/
theorem getPublicUrl_format (env : Env) (bucket key region : String)
    (h : env.AWS_REGION = some region) :
    getPublicUrl env bucket key
      = "https://" ++ bucket ++ ".s3." ++ region ++ ".amazonaws.com/" ++ key := by
  simp [getPublicUrl, jsTemplateString, h]

theorem getPublicUrl_format_witness :
    getPublicUrl envW "bucket" "no/such/object.png"
      = "https://" ++ "bucket" ++ ".s3." ++ "us-east-1" ++ ".amazonaws.com/"
          ++ "no/such/object.png" :=
  getPublicUrl_format envW "bucket" "no/such/object.png" "us-east-1" rfl

/-- Claim C4: uploadFileToS3 issues exactly one put request (no retry) and
its result is exactly the provider outcome of that request: a provider error
propagates unchanged and a provider success yields success. -/
theorem uploadFileToS3_propagates (params : UploadParams)
    (send : PutObjectCommandInput → Except String Unit) :
    (uploadFileToS3 params send).result = send (uploadInput params) ∧
    (uploadFileToS3 params send).requests = [uploadInput params] := by
  cases h : send (uploadInput params) with
  | ok u => cases u; simp [uploadFileToS3, h]
  | error e => simp [uploadFileToS3, h]

/-- Claim C8: when the ACL field of the upload parameters is absent or
falsy, uploadFileToS3 omits the ACL field from the put-object request
entirely instead of substituting a public-read default. -/
theorem uploadInput_omits_acl (params : UploadParams)
    (h : params.ACL = none ∨ params.ACL = some "") :
    (uploadInput params).ACL = none := by
  rcases h with h | h <;> simp [uploadInput, jsTruthy, h]

theorem uploadInput_omits_acl_witness : (uploadInput paramsNoAcl).ACL = none :=
  uploadInput_omits_acl paramsNoAcl (Or.inl rfl)

/-- Claim C9: with the expiration argument omitted, both signed-URL
operations request a lifetime of exactly 300 seconds from the provider. -/
theorem signedUrl_default_expiry (bucket key contentType : String) :
    (generateUploadSignedUrl bucket key contentType none).expiresIn = 300 ∧
    (generateGetSignedUrl bucket key none).expiresIn = 300 :=
  ⟨rfl, rfl⟩

/-- Helper: the length of the value listFilesInS3Path builds from a provider
response is the page-size cap applied to the number of matching objects. -/
theorem listResult_length (os : List S3Object) (p : String) :
    (((s3ListObjectsV2 os p).Contents.map
        (fun l => l.map descriptorOfItem)).getD []).length
      = min listDefaultPageSize (os.filter (fun o => strStarts p o.Key)).length := by
  simp only [s3ListObjectsV2]
  by_cases hp : ((os.filter (fun o => strStarts p o.Key)).take
      listDefaultPageSize).isEmpty = true
  · rw [if_pos hp]
    have hempty := List.isEmpty_iff.mp hp
    have hlen := congrArg List.length hempty
    rw [List.length_take] at hlen
    simpa using hlen.symm
  · rw [if_neg hp]
    simp [List.length_take]

/-- Claim C2: every descriptor returned by listFilesInS3Path has a key that
starts with the requested value; objects outside it never appear, because
the single list request carries that value and the provider filters on it. -/
theorem listFilesInS3Path_only_matching (store : String → List S3Object)
    (bucket p : String) (ds : List FileDescriptor)
    (hres : (listFilesInS3Path bucket p (awsSend store)).result = Except.ok ds)
    (d : FileDescriptor) (hd : d ∈ ds) :
    strStarts p d.key = true := by
  simp only [listFilesInS3Path, awsSend, Except.ok.injEq] at hres
  subst hres
  simp only [s3ListObjectsV2] at hd
  by_cases hp : (((store bucket).filter (fun o => strStarts p o.Key)).take
      listDefaultPageSize).isEmpty = true
  · rw [if_pos hp] at hd
    simp at hd
  · rw [if_neg hp] at hd
    simp only [Option.map_some', Option.getD_some, List.mem_map] at hd
    obtain ⟨item, hitem, rfl⟩ := hd
    have hfilter : item ∈ (store bucket).filter (fun o => strStarts p o.Key) :=
      List.take_subset _ _ hitem
    exact (List.mem_filter.mp hfilter).2

theorem listFilesInS3Path_only_matching_witness :
    strStarts "test" (descriptorOfItem objTestA).key = true :=
  listFilesInS3Path_only_matching storeW "b" "test" [descriptorOfItem objTestA]
    rfl (descriptorOfItem objTestA) (by simp)

/-- Claim C3: listFilesInS3Path issues exactly one list request, carrying no
continuation token, and returns one page: the number of returned descriptors
is the number of matching objects capped at the provider default page size,
so it never exceeds one page and objects beyond the page are absent. -/
theorem listFilesInS3Path_single_page (store : String → List S3Object)
    (bucket p : String) :
    (listFilesInS3Path bucket p (awsSend store)).requests
        = [{ Bucket := bucket, Pfx := p }] ∧
    ∃ ds, (listFilesInS3Path bucket p (awsSend store)).result = Except.ok ds ∧
      ds.length ≤ listDefaultPageSize ∧
      ds.length = min listDefaultPageSize
          ((store bucket).filter (fun o => strStarts p o.Key)).length := by
  refine ⟨by simp [listFilesInS3Path, awsSend], ?_⟩
  refine ⟨_, rfl, ?_, ?_⟩
  · exact le_trans (le_of_eq (listResult_length (store bucket) p))
      (min_le_left _ _)
  · exact listResult_length (store bucket) p

/-- Claim C10: when no stored object matches the requested value, the
provider omits the Contents field and listFilesInS3Path maps that absence to
the empty list, not to an undefined value or an error. -/
theorem listFilesInS3Path_empty_result (store : String → List S3Object)
    (bucket p : String)
    (h : (store bucket).filter (fun o => strStarts p o.Key) = []) :
    (s3ListObjectsV2 (store bucket) p).Contents = none ∧
    (listFilesInS3Path bucket p (awsSend store)).result = Except.ok [] := by
  have hC : (s3ListObjectsV2 (store bucket) p).Contents = none := by
    simp [s3ListObjectsV2, h]
  refine ⟨hC, ?_⟩
  simp only [listFilesInS3Path, awsSend]
  rw [hC]
  rfl

theorem listFilesInS3Path_empty_result_witness :
    (s3ListObjectsV2 (storeOnlyOther "b") "test").Contents = none ∧
    (listFilesInS3Path "b" "test" (awsSend storeOnlyOther)).result
      = Except.ok [] :=
  listFilesInS3Path_empty_result storeOnlyOther "b" "test" (by decide)

/-- Claim C5 counterexample: with AWS_REGION absent, the client region gets
no empty-string default — the code passes the variable through untouched, so
the region stays absent and public URLs render the text undefined; the
empty-string-default part of the claim fails for the region. -/
theorem s3Client_region_no_default :
    (s3Client envAllMissing).region = none ∧
    ¬ (s3Client envAllMissing).region = some "" ∧
    getPublicUrl envAllMissing "b" "k"
      = "https://b.s3.undefined.amazonaws.com/k" :=
  ⟨rfl, by decide, by decide⟩

/-- Claim C5 amended: when the access key, secret key or bucket name
variable is absent the code substitutes the empty string and proceeds; the
region is passed through with no default at all (it stays absent), and the
program still proceeds rather than failing at startup: the upload action
still hands parameters on, with an empty bucket name. -/
theorem env_defaults_amended (env : Env) (f : JsFile) (pf : Option String)
    (h1 : env.AWS_ACCESS_KEY_ID = none) (h2 : env.AWS_SECRET_ACCESS_KEY = none)
    (h3 : env.AWS_BUCKET_NAME = none) (h4 : env.AWS_REGION = none)
    (h5 : ¬ f.name = "") :
    (s3Client env).accessKeyId = "" ∧ (s3Client env).secretAccessKey = "" ∧
    (s3Client env).region = none ∧
    ∃ params, (uploadAction env (some f) pf).outcome = Except.ok params ∧
      params.Bucket = "" := by
  refine ⟨by simp [s3Client, h1], by simp [s3Client, h2],
    by simp [s3Client, h4], ?_⟩
  have houtcome : (uploadAction env (some f) pf).outcome
      = Except.ok
          { Bucket := (env.AWS_BUCKET_NAME).getD ""
            Key := "test/" ++ f.name
            Body := f.content
            ContentType := some f.type
            ACL := some (if pf == some "on" || pf == some "true"
              then "private" else "public-read") } := by
    simp only [uploadAction]
    rw [if_neg h5]
  refine ⟨_, houtcome, ?_⟩
  simp [h3]

theorem env_defaults_amended_witness :
    (s3Client envAllMissing).accessKeyId = "" ∧
    (s3Client envAllMissing).secretAccessKey = "" ∧
    (s3Client envAllMissing).region = none ∧
    ∃ params, (uploadAction envAllMissing (some fileW) none).outcome
        = Except.ok params ∧ params.Bucket = "" :=
  env_defaults_amended envAllMissing fileW none rfl rfl rfl rfl (by decide)

/-- Claim C6 counterexample: on a submission with the file missing, the
handler does not merely log and continue — after the missing-file check logs
File is required, the empty-file check reads size on the null file and the
action halts with a TypeError. -/
theorem uploadAction_missing_file_throws :
    (uploadAction envW none none).outcome
        = Except.error (JsErr.typeError nullSizeMsg) ∧
    (uploadAction envW none none).errorLogs = ["File is required"] :=
  ⟨rfl, rfl⟩

/-- Claim C6 amended: when the file is present but empty, the empty-file
check only logs File is empty and execution is not halted by it — with a
nonempty file name the action proceeds all the way to the upload; when the
file is missing, the missing-file check likewise only logs, but execution
still halts, because the condition of the empty-file check dereferences the
null file and throws a TypeError. -/
theorem uploadAction_empty_file_only_logs (env : Env) (f : JsFile)
    (pf : Option String) (hsize : f.size = 0) (hname : ¬ f.name = "") :
    "File is empty" ∈ (uploadAction env (some f) pf).errorLogs ∧
    (∃ params, (uploadAction env (some f) pf).outcome = Except.ok params) ∧
    (uploadAction env none pf).outcome
      = Except.error (JsErr.typeError nullSizeMsg) ∧
    "File is required" ∈ (uploadAction env none pf).errorLogs := by
  have houtcome : (uploadAction env (some f) pf).outcome
      = Except.ok
          { Bucket := (env.AWS_BUCKET_NAME).getD ""
            Key := "test/" ++ f.name
            Body := f.content
            ContentType := some f.type
            ACL := some (if pf == some "on" || pf == some "true"
              then "private" else "public-read") } := by
    simp only [uploadAction]
    rw [if_neg hname]
  refine ⟨?_, ⟨_, houtcome⟩, rfl, ?_⟩
  · simp [uploadAction, hsize, hname]
  · simp [uploadAction]

theorem uploadAction_empty_file_only_logs_witness :
    "File is empty" ∈ (uploadAction envW (some fileEmptyW) none).errorLogs ∧
    (∃ params, (uploadAction envW (some fileEmptyW) none).outcome
        = Except.ok params) ∧
    (uploadAction envW none none).outcome
      = Except.error (JsErr.typeError nullSizeMsg) ∧
    "File is required" ∈ (uploadAction envW none none).errorLogs :=
  uploadAction_empty_file_only_logs envW fileEmptyW none rfl (by decide)

/-- Helper: a slot whose task does not appear in the schedule keeps its
value. -/
theorem runTasks_not_mem (entry : Nat → PageFileEntry) (i : Nat) :
    ∀ (sched : List Nat) (slots : Nat → Option PageFileEntry), i ∉ sched →
      runTasks entry sched slots i = slots i := by
  intro sched
  induction sched with
  | nil => intro slots _; rfl
  | cons j rest ih =>
      intro slots h
      have hj : ¬ i = j := fun hij => h (by simp [hij])
      have hrest : i ∉ rest := fun hm => h (List.mem_cons_of_mem _ hm)
      simp only [runTasks]
      rw [ih _ hrest]
      simp [hj]

/-- Helper: a slot whose task appears in the schedule ends holding the entry
computed by that task, wherever in the schedule the task runs. -/
theorem runTasks_mem (entry : Nat → PageFileEntry) (i : Nat) :
    ∀ (sched : List Nat) (slots : Nat → Option PageFileEntry), i ∈ sched →
      runTasks entry sched slots i = some (entry i) := by
  intro sched
  induction sched with
  | nil => intro slots h; cases h
  | cons j rest ih =>
      intro slots h
      by_cases hm : i ∈ rest
      · exact ih _ hm
      · have hij : i = j := by
          rcases List.mem_cons.mp h with h1 | h2
          · exact h1
          · exact absurd h2 hm
        simp only [runTasks]
        rw [runTasks_not_mem entry i rest _ hm]
        simp [hij]

/-- Claim C7: under every interleaving of the concurrent fan-out — modelled
as any permutation schedule of the task indices — slot i of the joined
result holds exactly the entry computed from the descriptor listed at index
i: its key is that descriptor key, and its URL is generated from that same
key (signed with a 10 second expiry when unhide is on, otherwise the public
URL), so no cross-contamination of keys occurs. -/
theorem pageFanOut_no_cross_contamination (env : Env)
    (sign : PresignRequest → String) (mimeLookup : String → Option String)
    (unhide : Option String) (files : List FileDescriptor) (sched : List Nat)
    (hperm : sched.Perm (List.range files.length)) (i : Nat)
    (hi : i < files.length) :
    runTasks (fun j => pageEntry env sign mimeLookup unhide (files.getD j default))
        sched (fun _ => none) i
      = some (pageEntry env sign mimeLookup unhide (files.getD i default)) ∧
    (pageEntry env sign mimeLookup unhide (files.getD i default)).key
      = (files.getD i default).key ∧
    (pageEntry env sign mimeLookup unhide (files.getD i default)).url
      = (if unhide == some "on" then
          sign (generateGetSignedUrl "teqhire-store-dev"
            (files.getD i default).key (some 10))
        else
          getPublicUrl env ((env.AWS_BUCKET_NAME).getD "")
            (files.getD i default).key) := by
  have hmem : i ∈ sched := hperm.mem_iff.mpr (List.mem_range.mpr hi)
  exact ⟨runTasks_mem _ i sched _ hmem, rfl, rfl⟩

theorem pageFanOut_no_cross_contamination_witness :
    runTasks (fun j => pageEntry envW signW mimeW (some "on") (filesW.getD j default))
        [1, 0] (fun _ => none) 0
      = some (pageEntry envW signW mimeW (some "on") (filesW.getD 0 default)) ∧
    (pageEntry envW signW mimeW (some "on") (filesW.getD 0 default)).key
      = (filesW.getD 0 default).key ∧
    (pageEntry envW signW mimeW (some "on") (filesW.getD 0 default)).url
      = (if (some "on" : Option String) == some "on" then
          signW (generateGetSignedUrl "teqhire-store-dev"
            (filesW.getD 0 default).key (some 10))
        else
          getPublicUrl envW ((envW.AWS_BUCKET_NAME).getD "")
            (filesW.getD 0 default).key) :=
  pageFanOut_no_cross_contamination envW signW mimeW (some "on") filesW
    [1, 0] (by decide) 0 (by decide)

end S3Train
